import Mathlib

/-!
# httpunix: HTTP over Unix domain sockets

A shallow embedding of `Transport.RoundTrip` from `httpunix.go` and the
properties of it that the specification states.

Modelling conventions.

* Go strings are Lean `String`s.  The only string operations the routine uses
  are equality, concatenation and `strings.Split` on the one-byte separator
  `":"`; the byte `:` never occurs inside a multi-byte UTF-8 sequence, so
  splitting characters and splitting bytes agree.
* `time.Duration` is a signed nanosecond count and `time.Time` an instant in
  nanoseconds; `time.Now().Add(d)` is addition of integers.
* The routine talks to the outside world only through `net.DialTimeout`,
  the methods of the connection it gets back, `Request.Write`,
  `http.ReadResponse` and `time.Now`.  These are fields of an `Env` acting on
  an arbitrary world state; every call of one of them is recorded, with its
  arguments, in a trace.
* A pointer to the request is passed in; the routine overwrites
  `req.URL.Path`.  The state of the caller's request object when the routine
  returns is part of the result.  `Request.Write` and `http.ReadResponse`
  read the request they are given and leave it as it is.
* The results of `SetWriteDeadline` and `SetReadDeadline` are dropped, as in
  the source; `bufio.NewReader(c)` only wraps the connection and makes no call.
-/

namespace Httpunix

/-! ## Data model -/

/-- Signed nanosecond count, Go's `time.Duration`. -/
abbrev Duration := Int

/-- An instant, in nanoseconds, Go's `time.Time`. -/
abbrev Time := Int

/-- The fields of `net/url.URL` that matter to a request. -/
structure URL where
  Scheme : String
  Host : String
  Path : String
  RawQuery : String
  deriving DecidableEq

/-- The request object, `net/http.Request`; `URL` is a nilable pointer. -/
structure Request where
  Method : String
  URL : Option URL
  Header : List (String × String)
  Body : String
  deriving DecidableEq

/-- Scheme is the URL scheme used for HTTP over UNIX domain sockets. -/
def Scheme : String := "http+unix"

/-- Transport is a http.RoundTripper that connects to Unix domain sockets. -/
structure Transport where
  DialTimeout : Duration
  RequestTimeout : Duration
  ResponseHeaderTimeout : Duration
  deriving DecidableEq

/-- A Go `error` value as seen by the caller: made here by `errors.New`
(every call of `errors.New` yields a value distinct from every other error),
or handed over by a collaborator. -/
inductive GoError (ε : Type) where
  | New (text : String)
  | ext (e : ε)
  deriving DecidableEq

/-- One call made to the outside world, with its arguments. -/
inductive Event (κ : Type) where
  | dial (network address : String) (timeout : Duration)
  | setWriteDeadline (c : κ) (t : Time)
  | write (c : κ) (req : Request)
  | setReadDeadline (c : κ) (t : Time)
  | read (c : κ) (req : Request)
  | close (c : κ)
  deriving DecidableEq

/-- The step an event belongs to. -/
inductive Step where
  | dial | deadline | write | read | close
  deriving DecidableEq

/-- The step of an event. -/
def Event.step {κ : Type} : Event κ → Step
  | .dial _ _ _ => .dial
  | .setWriteDeadline _ _ => .deadline
  | .write _ _ => .write
  | .setReadDeadline _ _ => .deadline
  | .read _ _ => .read
  | .close _ => .close

/-- The collaborators: world state `σ`, connections `κ`, collaborator errors
`ε`, parsed responses `ρ`.  Each operation may succeed or fail and may change
the world in any way. -/
structure Env (σ κ ε ρ : Type) where
  /-- Reading of the clock, `time.Now()`. -/
  Now : σ → Time
  /-- Library call `net.DialTimeout(network, address, timeout)`. -/
  DialTimeout : String → String → Duration → σ → Except ε κ × σ
  /-- Method `c.SetWriteDeadline(t)` of `net.Conn`. -/
  SetWriteDeadline : κ → Time → σ → Option ε × σ
  /-- Method `c.SetReadDeadline(t)` of `net.Conn`. -/
  SetReadDeadline : κ → Time → σ → Option ε × σ
  /-- Serialization `req.Write(c)`. -/
  Write : Request → κ → σ → Option ε × σ
  /-- Parsing `http.ReadResponse(bufio.NewReader(c), req)`. -/
  ReadResponse : κ → Request → σ → (Option ρ × Option ε) × σ
  /-- Method `c.Close()` of `net.Conn`. -/
  Close : κ → σ → Option ε × σ

/-- The world together with the calls made so far. -/
structure World (σ κ : Type) where
  st : σ
  trace : List (Event κ)

/-- What a call of `RoundTrip` leaves behind: the two return values, the
caller's request object, and the world. -/
structure Result (σ κ ε ρ : Type) where
  resp : Option ρ
  err : Option (GoError ε)
  req : Request
  world : World σ κ

section ops
variable {σ κ ε ρ : Type}

/-! ## Library calls, recorded -/

/-- Call `time.Now()`. -/
def timeNow (env : Env σ κ ε ρ) (w : World σ κ) : Time :=
  env.Now w.st

/-- Call `net.DialTimeout(network, address, timeout)`. -/
def netDialTimeout (env : Env σ κ ε ρ) (network address : String) (timeout : Duration)
    (w : World σ κ) : Except ε κ × World σ κ :=
  ((env.DialTimeout network address timeout w.st).1,
   ⟨(env.DialTimeout network address timeout w.st).2,
    w.trace ++ [Event.dial network address timeout]⟩)

/-- Call `c.SetWriteDeadline(t)`. -/
def connSetWriteDeadline (env : Env σ κ ε ρ) (c : κ) (t : Time)
    (w : World σ κ) : Option ε × World σ κ :=
  ((env.SetWriteDeadline c t w.st).1,
   ⟨(env.SetWriteDeadline c t w.st).2, w.trace ++ [Event.setWriteDeadline c t]⟩)

/-- Call `c.SetReadDeadline(t)`. -/
def connSetReadDeadline (env : Env σ κ ε ρ) (c : κ) (t : Time)
    (w : World σ κ) : Option ε × World σ κ :=
  ((env.SetReadDeadline c t w.st).1,
   ⟨(env.SetReadDeadline c t w.st).2, w.trace ++ [Event.setReadDeadline c t]⟩)

/-- Call `req.Write(c)`. -/
def reqWrite (env : Env σ κ ε ρ) (req : Request) (c : κ)
    (w : World σ κ) : Option ε × World σ κ :=
  ((env.Write req c w.st).1,
   ⟨(env.Write req c w.st).2, w.trace ++ [Event.write c req]⟩)

/-- Call `http.ReadResponse(r, req)` with `r` the buffered reader over `c`. -/
def httpReadResponse (env : Env σ κ ε ρ) (c : κ) (req : Request)
    (w : World σ κ) : (Option ρ × Option ε) × World σ κ :=
  ((env.ReadResponse c req w.st).1,
   ⟨(env.ReadResponse c req w.st).2, w.trace ++ [Event.read c req]⟩)

/-- Call `c.Close()`. -/
def connClose (env : Env σ κ ε ρ) (c : κ) (w : World σ κ) : Option ε × World σ κ :=
  ((env.Close c w.st).1, ⟨(env.Close c w.st).2, w.trace ++ [Event.close c]⟩)

/-! ## `strings.Split` -/

/-- Cut a character sequence at every occurrence of `sep`. -/
def splitChars (sep : Char) : List Char → List (List Char)
  | [] => [[]]
  | c :: cs =>
    if c = sep then [] :: splitChars sep cs
    else
      match splitChars sep cs with
      | [] => [[c]]
      | p :: ps => (c :: p) :: ps

/-- Library call `strings.Split(s, sep)` for a one-byte separator: all
substrings of `s` between occurrences of `sep`. -/
def Split (s : String) (sep : Char) : List String :=
  (splitChars sep s.data).map String.mk

/-! ## The transport -/

/-- Assignment `req.URL.Path = p` (the URL is known to be non-nil where the
routine assigns). -/
def setPath (req : Request) (p : String) : Request :=
  { req with URL := req.URL.map fun u => { u with Path := p } }

/-- Lines 64-79 of `RoundTrip`: dial, optional write deadline, write, optional
read deadline, read. -/
def exchange (t : Transport) (env : Env σ κ ε ρ) (req : Request)
    (unixSocketFile : String) (w : World σ κ) : Result σ κ ε ρ :=
  match netDialTimeout env "unix" unixSocketFile t.DialTimeout w with
  | (.error err, w1) => ⟨none, some (.ext err), req, w1⟩
  | (.ok c, w1) =>
    let w2 :=
      if t.RequestTimeout > 0 then
        (connSetWriteDeadline env c (timeNow env w1 + t.RequestTimeout) w1).2
      else w1
    match reqWrite env req c w2 with
    | (some err, w3) => ⟨none, some (.ext err), req, w3⟩
    | (none, w3) =>
      let w4 :=
        if t.ResponseHeaderTimeout > 0 then
          (connSetReadDeadline env c (timeNow env w3 + t.ResponseHeaderTimeout) w3).2
        else w3
      let r := httpReadResponse env c req w4
      ⟨r.1.1, r.1.2.map GoError.ext, req, r.2⟩

/-- RoundTrip executes a single HTTP transaction. -/
def RoundTrip (t : Transport) (env : Env σ κ ε ρ) (req : Request)
    (w : World σ κ) : Result σ κ ε ρ :=
  match req.URL with
  | none => ⟨none, some (.New "http+unix: nil Request.URL"), req, w⟩
  | some u =>
    if u.Scheme ≠ Scheme then
      ⟨none, some (.New ("unsupported protocol scheme: " ++ u.Scheme)), req, w⟩
    else if u.Host ≠ "unix" then
      ⟨none, some (.New "http+unix: invalid Host in request URL"), req, w⟩
    else
      let parts := Split u.Path ':'
      if parts.length ≠ 2 then
        ⟨none, some (.New "http+unix: Invalid URL format"), req, w⟩
      else
        let unixSocketFile := parts.getD 0 ""
        let urlPath := parts.getD 1 ""
        -- change path during the request
        let path := u.Path
        let out := exchange t env (setPath req urlPath) unixSocketFile w
        -- the deferred assignment `req.URL.Path = path`
        { out with req := setPath out.req path }

/-! ## Vocabulary for the statements -/

/-- The calls a run made: the events it appended to the trace of `w`. -/
def calls (out : Result σ κ ε ρ) (w : World σ κ) : List (Event κ) :=
  out.world.trace.drop w.trace.length

/-- The steps of the calls a run made, in order. -/
def steps (out : Result σ κ ε ρ) (w : World σ κ) : List Step :=
  (calls out w).map Event.step

/-- The state in which the request is written on connection `c`, given the
state `s1` the dial left: line 69-71 has run. -/
def stBeforeWrite (t : Transport) (env : Env σ κ ε ρ) (c : κ) (s1 : σ) : σ :=
  if t.RequestTimeout > 0 then
    (env.SetWriteDeadline c (env.Now s1 + t.RequestTimeout) s1).2
  else s1

/-- The state in which the response is read from connection `c`, given the
state `s3` the write left: line 75-77 has run. -/
def stBeforeRead (t : Transport) (env : Env σ κ ε ρ) (c : κ) (s3 : σ) : σ :=
  if t.ResponseHeaderTimeout > 0 then
    (env.SetReadDeadline c (env.Now s3 + t.ResponseHeaderTimeout) s3).2
  else s3

/-- The rules a request violates, as the messages of their errors, in the
order nil URL, scheme, host, path format. -/
def violations (req : Request) : List String :=
  match req.URL with
  | none => ["http+unix: nil Request.URL"]
  | some u =>
    (if u.Scheme ≠ "http+unix" then ["unsupported protocol scheme: " ++ u.Scheme] else []) ++
    (if u.Host ≠ "unix" then ["http+unix: invalid Host in request URL"] else []) ++
    (if u.Path.data.count ':' ≠ 1 then ["http+unix: Invalid URL format"] else [])

end ops

/-! ## Concrete collaborators used in examples -/

/-- A world that counts the calls made and uses the count as the clock. -/
def demoEnv (dialOk writeOk readOk : Bool) : Env Nat Nat String String where
  Now := fun s => 1000 + s
  DialTimeout := fun _ _ _ s => (if dialOk then .ok 7 else .error "connection refused", s + 1)
  SetWriteDeadline := fun _ _ s => (none, s + 1)
  SetReadDeadline := fun _ _ s => (none, s + 1)
  Write := fun _ _ s => (if writeOk then none else some "broken pipe", s + 1)
  ReadResponse := fun _ _ s =>
    (if readOk then (some "200 OK", none) else (none, some "unexpected EOF"), s + 1)
  Close := fun _ s => (none, s + 1)

/-- The initial world: nothing has happened. -/
def demoWorld : World Nat Nat := ⟨0, []⟩

/-- A transport with all three timeouts set. -/
def demoTransport : Transport := ⟨5, 20, 30⟩

/-- A URL without query. -/
def demoURL (scheme host path : String) : URL :=
  ⟨scheme, host, path, ""⟩

/-- A GET request for the given URL. -/
def demoReq (scheme host path : String) : Request :=
  ⟨"GET", some (demoURL scheme host path), [], ""⟩

/-- The request of the package documentation:
`http+unix://unix:/tmp/test.sock:/ping`. -/
def pingReq : Request := demoReq "http+unix" "unix" "/tmp/test.sock:/ping"

/-- The URL of `pingReq`. -/
def pingURL : URL := demoURL "http+unix" "unix" "/tmp/test.sock:/ping"



section facts
variable {σ κ ε ρ : Type}

/-! ## Facts about `strings.Split` -/

theorem splitChars_ne_nil (sep : Char) (l : List Char) : splitChars sep l ≠ [] := by
  cases l with
  | nil => simp [splitChars]
  | cons c cs =>
    unfold splitChars
    split
    · simp
    · split <;> simp

theorem splitChars_length (sep : Char) (l : List Char) :
    (splitChars sep l).length = l.count sep + 1 := by
  induction l with
  | nil => simp [splitChars]
  | cons c cs ih =>
    unfold splitChars
    by_cases h : c = sep
    · subst h
      simp [ih]
    · rw [if_neg h, List.count_cons_of_ne (Ne.symm h)]
      cases hs : splitChars sep cs with
      | nil => exact absurd hs (splitChars_ne_nil sep cs)
      | cons p ps => simpa [hs] using ih

theorem splitChars_of_not_mem (sep : Char) (l : List Char) (h : sep ∉ l) :
    splitChars sep l = [l] := by
  induction l with
  | nil => simp [splitChars]
  | cons c cs ih =>
    have hc : c ≠ sep := fun e => h (by simp [e])
    have hcs : sep ∉ cs := fun e => h (by simp [e])
    unfold splitChars
    rw [if_neg hc, ih hcs]

theorem splitChars_append (sep : Char) (a b : List Char) (h : sep ∉ a) :
    splitChars sep (a ++ sep :: b) = a :: splitChars sep b := by
  induction a with
  | nil => simp [splitChars]
  | cons c cs ih =>
    have hc : c ≠ sep := fun e => h (by simp [e])
    have hcs : sep ∉ cs := fun e => h (by simp [e])
    rw [List.cons_append, splitChars, if_neg hc, ih hcs]

/-- The parts joined by the separator give the string back. -/
theorem splitChars_join (sep : Char) (l : List Char) :
    List.intercalate [sep] (splitChars sep l) = l := by
  induction l with
  | nil => simp [splitChars, List.intercalate]
  | cons c cs ih =>
    unfold splitChars
    by_cases h : c = sep
    · subst h
      rw [if_pos rfl]
      cases hs : splitChars c cs with
      | nil => exact absurd hs (splitChars_ne_nil c cs)
      | cons p ps =>
        rw [hs] at ih
        simp only [List.intercalate, List.intersperse, List.flatten, List.nil_append,
          List.singleton_append] at ih ⊢
        rw [ih]
    · rw [if_neg h]
      cases hs : splitChars sep cs with
      | nil => exact absurd hs (splitChars_ne_nil sep cs)
      | cons p ps =>
        rw [hs] at ih
        cases ps with
        | nil =>
          simp only [List.intercalate, List.intersperse, List.flatten, List.append_nil] at ih ⊢
          rw [ih]
        | cons q qs =>
          simp only [List.intercalate, List.intersperse, List.flatten, List.cons_append] at ih ⊢
          rw [ih]

/-- No part contains the separator. -/
theorem splitChars_not_mem (sep : Char) (l : List Char) :
    ∀ p ∈ splitChars sep l, sep ∉ p := by
  induction l with
  | nil => simp [splitChars]
  | cons c cs ih =>
    unfold splitChars
    by_cases h : c = sep
    · rw [if_pos h]
      intro p hp
      rcases List.mem_cons.1 hp with rfl | hp
      · simp
      · exact ih p hp
    · rw [if_neg h]
      cases hs : splitChars sep cs with
      | nil => exact absurd hs (splitChars_ne_nil sep cs)
      | cons q qs =>
        rw [hs] at ih
        intro p hp
        rcases List.mem_cons.1 hp with rfl | hp
        · intro hm
          rcases List.mem_cons.1 hm with e | hm
          · exact h e.symm
          · exact ih q (by simp) hm
        · exact ih p (by simp [hp])

theorem Split_length (s : String) (sep : Char) :
    (Split s sep).length = s.data.count sep + 1 := by
  simp [Split, splitChars_length]

theorem Split_pair (a b : String) (ha : ':' ∉ a.data) (hb : ':' ∉ b.data) :
    Split (a ++ ":" ++ b) ':' = [a, b] := by
  have hd : (a ++ ":" ++ b).data = a.data ++ ':' :: b.data := by
    simp [String.data_append]
  simp [Split, hd, splitChars_append _ _ _ ha, splitChars_of_not_mem _ _ hb]

/-- A path has exactly one colon exactly when it is `a ++ ":" ++ b` with `a`
and `b` free of colons. -/
theorem count_eq_one_iff (s : String) :
    s.data.count ':' = 1 ↔
      ∃ a b : String, s = a ++ ":" ++ b ∧ ':' ∉ a.data ∧ ':' ∉ b.data := by
  constructor
  · intro h
    have hl : (splitChars ':' s.data).length = 2 := by rw [splitChars_length, h]
    have hj := splitChars_join ':' s.data
    have hn := splitChars_not_mem ':' s.data
    match hs : splitChars ':' s.data, hl with
    | [p, q], _ =>
      rw [hs] at hj hn
      refine ⟨⟨p⟩, ⟨q⟩, ?_, hn p (by simp), hn q (by simp)⟩
      apply String.ext
      simp only [String.data_append]
      rw [← hj]
      simp [List.intercalate, List.intersperse]
  · rintro ⟨a, b, rfl, ha, hb⟩
    have := Split_length (a ++ ":" ++ b) ':'
    rw [Split_pair a b ha hb] at this
    simpa using this.symm

/-! ## Facts about the exchange -/

theorem setPath_setPath (req : Request) (u : URL) (p : String) (hu : req.URL = some u) :
    setPath (setPath req p) u.Path = req := by
  cases req with
  | mk m url h b =>
    simp only at hu
    subst hu
    simp [setPath]

theorem exchange_req (t : Transport) (env : Env σ κ ε ρ) (req : Request) (a : String)
    (w : World σ κ) : (exchange t env req a w).req = req := by
  unfold exchange
  split
  · rfl
  · dsimp only
    split <;> rfl

theorem exchange_dial_error (t : Transport) (env : Env σ κ ε ρ) (req : Request) (a : String)
    (w : World σ κ) (e : ε) (s1 : σ)
    (hd : env.DialTimeout "unix" a t.DialTimeout w.st = (.error e, s1)) :
    exchange t env req a w =
      ⟨none, some (.ext e), req, ⟨s1, w.trace ++ [.dial "unix" a t.DialTimeout]⟩⟩ := by
  simp [exchange, netDialTimeout, hd]

theorem exchange_write_error (t : Transport) (env : Env σ κ ε ρ) (req : Request) (a : String)
    (w : World σ κ) (c : κ) (s1 : σ) (e : ε) (s3 : σ)
    (hd : env.DialTimeout "unix" a t.DialTimeout w.st = (.ok c, s1))
    (hw : env.Write req c (stBeforeWrite t env c s1) = (some e, s3)) :
    exchange t env req a w =
      ⟨none, some (.ext e), req,
        ⟨s3, w.trace ++ ([.dial "unix" a t.DialTimeout] ++
          (if t.RequestTimeout > 0 then
            [.setWriteDeadline c (env.Now s1 + t.RequestTimeout)] else []) ++
          [.write c req])⟩⟩ := by
  unfold stBeforeWrite at hw
  by_cases h : t.RequestTimeout > 0
  · simp only [h, if_true] at hw
    simp [exchange, netDialTimeout, hd, h, connSetWriteDeadline, timeNow, reqWrite, hw]
  · simp only [h, if_false] at hw
    simp [exchange, netDialTimeout, hd, h, reqWrite, hw]

theorem exchange_read (t : Transport) (env : Env σ κ ε ρ) (req : Request) (a : String)
    (w : World σ κ) (c : κ) (s1 s3 : σ)
    (hd : env.DialTimeout "unix" a t.DialTimeout w.st = (.ok c, s1))
    (hw : env.Write req c (stBeforeWrite t env c s1) = (none, s3)) :
    exchange t env req a w =
      ⟨(env.ReadResponse c req (stBeforeRead t env c s3)).1.1,
       (env.ReadResponse c req (stBeforeRead t env c s3)).1.2.map GoError.ext, req,
        ⟨(env.ReadResponse c req (stBeforeRead t env c s3)).2,
         w.trace ++ ([.dial "unix" a t.DialTimeout] ++
          (if t.RequestTimeout > 0 then
            [.setWriteDeadline c (env.Now s1 + t.RequestTimeout)] else []) ++
          [.write c req] ++
          (if t.ResponseHeaderTimeout > 0 then
            [.setReadDeadline c (env.Now s3 + t.ResponseHeaderTimeout)] else []) ++
          [.read c req])⟩⟩ := by
  unfold stBeforeWrite at hw
  unfold stBeforeRead
  by_cases h : t.RequestTimeout > 0 <;> by_cases h2 : t.ResponseHeaderTimeout > 0
  · simp only [h, if_true] at hw
    simp [exchange, netDialTimeout, hd, h, h2, connSetWriteDeadline, connSetReadDeadline,
      timeNow, reqWrite, hw, httpReadResponse]
  · simp only [h, if_true] at hw
    simp [exchange, netDialTimeout, hd, h, h2, connSetWriteDeadline, connSetReadDeadline,
      timeNow, reqWrite, hw, httpReadResponse]
  · simp only [h, if_false] at hw
    simp [exchange, netDialTimeout, hd, h, h2, connSetWriteDeadline, connSetReadDeadline,
      timeNow, reqWrite, hw, httpReadResponse]
  · simp only [h, if_false] at hw
    simp [exchange, netDialTimeout, hd, h, h2, connSetWriteDeadline, connSetReadDeadline,
      timeNow, reqWrite, hw, httpReadResponse]

/-- A request that passes validation runs the exchange on the rewritten
request and gets its path back. -/
theorem RoundTrip_valid (t : Transport) (env : Env σ κ ε ρ) (req : Request) (w : World σ κ)
    (u : URL) (a b : String) (hu : req.URL = some u) (hs : u.Scheme = Scheme)
    (hh : u.Host = "unix") (hp : u.Path = a ++ ":" ++ b)
    (ha : ':' ∉ a.data) (hb : ':' ∉ b.data) :
    RoundTrip t env req w =
      { exchange t env (setPath req b) a w with req := req } := by
  have hsp : Split u.Path ':' = [a, b] := by rw [hp]; exact Split_pair a b ha hb
  unfold RoundTrip
  rw [hu]
  simp only [hs, hh, hsp, ne_eq, not_true_eq_false, if_false, List.length_cons,
    List.length_nil, List.getD_cons_zero, List.getD_cons_succ, exchange_req]
  rw [setPath_setPath req u b hu]

/-- The four validation failures leave everything as it was. -/
theorem RoundTrip_nil (t : Transport) (env : Env σ κ ε ρ) (req : Request) (w : World σ κ)
    (hu : req.URL = none) :
    RoundTrip t env req w = ⟨none, some (.New "http+unix: nil Request.URL"), req, w⟩ := by
  unfold RoundTrip
  rw [hu]

theorem RoundTrip_bad_scheme (t : Transport) (env : Env σ κ ε ρ) (req : Request)
    (w : World σ κ) (u : URL) (hu : req.URL = some u) (hs : u.Scheme ≠ Scheme) :
    RoundTrip t env req w =
      ⟨none, some (.New ("unsupported protocol scheme: " ++ u.Scheme)), req, w⟩ := by
  unfold RoundTrip
  rw [hu]
  simp only [hs, ne_eq, not_false_eq_true, if_true]

theorem RoundTrip_bad_host (t : Transport) (env : Env σ κ ε ρ) (req : Request)
    (w : World σ κ) (u : URL) (hu : req.URL = some u) (hs : u.Scheme = Scheme)
    (hh : u.Host ≠ "unix") :
    RoundTrip t env req w =
      ⟨none, some (.New "http+unix: invalid Host in request URL"), req, w⟩ := by
  unfold RoundTrip
  rw [hu]
  simp only [hs, hh, ne_eq, not_true_eq_false, not_false_eq_true, if_true, if_false]

theorem RoundTrip_bad_path (t : Transport) (env : Env σ κ ε ρ) (req : Request)
    (w : World σ κ) (u : URL) (hu : req.URL = some u) (hs : u.Scheme = Scheme)
    (hh : u.Host = "unix") (hc : u.Path.data.count ':' ≠ 1) :
    RoundTrip t env req w =
      ⟨none, some (.New "http+unix: Invalid URL format"), req, w⟩ := by
  have hl : (Split u.Path ':').length ≠ 2 := by
    rw [Split_length]
    omega
  unfold RoundTrip
  rw [hu]
  simp only [hs, hh, hl, ne_eq, not_true_eq_false, not_false_eq_true, if_true, if_false]

/-- The three ways an exchange can go. -/
theorem exchange_cases (t : Transport) (env : Env σ κ ε ρ) (req : Request) (a : String)
    (w : World σ κ) :
    (∃ e s1, env.DialTimeout "unix" a t.DialTimeout w.st = (.error e, s1)) ∨
    (∃ c s1 e s3, env.DialTimeout "unix" a t.DialTimeout w.st = (.ok c, s1) ∧
      env.Write req c (stBeforeWrite t env c s1) = (some e, s3)) ∨
    (∃ c s1 s3, env.DialTimeout "unix" a t.DialTimeout w.st = (.ok c, s1) ∧
      env.Write req c (stBeforeWrite t env c s1) = (none, s3)) := by
  rcases hd : env.DialTimeout "unix" a t.DialTimeout w.st with ⟨(e | c), s1⟩
  · exact Or.inl ⟨e, s1, rfl⟩
  · rcases hw : env.Write req c (stBeforeWrite t env c s1) with ⟨(_ | e), s3⟩
    · exact Or.inr (Or.inr ⟨c, s1, s3, rfl, hw⟩)
    · exact Or.inr (Or.inl ⟨c, s1, e, s3, rfl, hw⟩)

/-- An error that comes out of the exchange is a collaborator's. -/
theorem exchange_err_ne_New (t : Transport) (env : Env σ κ ε ρ) (req : Request) (a : String)
    (w : World σ κ) (m : String) : (exchange t env req a w).err ≠ some (.New m) := by
  rcases exchange_cases t env req a w with ⟨e, s1, hd⟩ | ⟨c, s1, e, s3, hd, hw⟩ |
    ⟨c, s1, s3, hd, hw⟩
  · rw [exchange_dial_error t env req a w e s1 hd]
    simp
  · rw [exchange_write_error t env req a w c s1 e s3 hd hw]
    simp
  · rw [exchange_read t env req a w c s1 s3 hd hw]
    cases (env.ReadResponse c req (stBeforeRead t env c s3)).1.2 <;> simp

/-- The caller's request object is the same after the call as before. -/
theorem RoundTrip_req (t : Transport) (env : Env σ κ ε ρ) (req : Request) (w : World σ κ) :
    (RoundTrip t env req w).req = req := by
  cases hu : req.URL with
  | none => rw [RoundTrip_nil t env req w hu]
  | some u =>
    by_cases hs : u.Scheme = Scheme
    · by_cases hh : u.Host = "unix"
      · by_cases hc : u.Path.data.count ':' = 1
        · obtain ⟨a, b, hp, ha, hb⟩ := (count_eq_one_iff u.Path).1 hc
          rw [RoundTrip_valid t env req w u a b hu hs hh hp ha hb]
        · rw [RoundTrip_bad_path t env req w u hu hs hh hc]
      · rw [RoundTrip_bad_host t env req w u hu hs hh]
    · rw [RoundTrip_bad_scheme t env req w u hu hs]

theorem RoundTrip_dial_error (t : Transport) (env : Env σ κ ε ρ) (req : Request)
    (w : World σ κ) (u : URL) (a b : String) (hu : req.URL = some u) (hs : u.Scheme = Scheme)
    (hh : u.Host = "unix") (hp : u.Path = a ++ ":" ++ b)
    (ha : ':' ∉ a.data) (hb : ':' ∉ b.data) (e : ε) (s1 : σ)
    (hd : env.DialTimeout "unix" a t.DialTimeout w.st = (.error e, s1)) :
    RoundTrip t env req w =
      ⟨none, some (.ext e), req, ⟨s1, w.trace ++ [.dial "unix" a t.DialTimeout]⟩⟩ := by
  rw [RoundTrip_valid t env req w u a b hu hs hh hp ha hb,
    exchange_dial_error t env (setPath req b) a w e s1 hd]

theorem RoundTrip_write_error (t : Transport) (env : Env σ κ ε ρ) (req : Request)
    (w : World σ κ) (u : URL) (a b : String) (hu : req.URL = some u) (hs : u.Scheme = Scheme)
    (hh : u.Host = "unix") (hp : u.Path = a ++ ":" ++ b)
    (ha : ':' ∉ a.data) (hb : ':' ∉ b.data) (c : κ) (s1 : σ) (e : ε) (s3 : σ)
    (hd : env.DialTimeout "unix" a t.DialTimeout w.st = (.ok c, s1))
    (hw : env.Write (setPath req b) c (stBeforeWrite t env c s1) = (some e, s3)) :
    RoundTrip t env req w =
      ⟨none, some (.ext e), req,
        ⟨s3, w.trace ++ ([.dial "unix" a t.DialTimeout] ++
          (if t.RequestTimeout > 0 then
            [.setWriteDeadline c (env.Now s1 + t.RequestTimeout)] else []) ++
          [.write c (setPath req b)])⟩⟩ := by
  rw [RoundTrip_valid t env req w u a b hu hs hh hp ha hb,
    exchange_write_error t env (setPath req b) a w c s1 e s3 hd hw]

theorem RoundTrip_read (t : Transport) (env : Env σ κ ε ρ) (req : Request)
    (w : World σ κ) (u : URL) (a b : String) (hu : req.URL = some u) (hs : u.Scheme = Scheme)
    (hh : u.Host = "unix") (hp : u.Path = a ++ ":" ++ b)
    (ha : ':' ∉ a.data) (hb : ':' ∉ b.data) (c : κ) (s1 s3 : σ)
    (hd : env.DialTimeout "unix" a t.DialTimeout w.st = (.ok c, s1))
    (hw : env.Write (setPath req b) c (stBeforeWrite t env c s1) = (none, s3)) :
    RoundTrip t env req w =
      ⟨(env.ReadResponse c (setPath req b) (stBeforeRead t env c s3)).1.1,
       (env.ReadResponse c (setPath req b) (stBeforeRead t env c s3)).1.2.map GoError.ext,
       req,
        ⟨(env.ReadResponse c (setPath req b) (stBeforeRead t env c s3)).2,
         w.trace ++ ([.dial "unix" a t.DialTimeout] ++
          (if t.RequestTimeout > 0 then
            [.setWriteDeadline c (env.Now s1 + t.RequestTimeout)] else []) ++
          [.write c (setPath req b)] ++
          (if t.ResponseHeaderTimeout > 0 then
            [.setReadDeadline c (env.Now s3 + t.ResponseHeaderTimeout)] else []) ++
          [.read c (setPath req b)])⟩⟩ := by
  rw [RoundTrip_valid t env req w u a b hu hs hh hp ha hb,
    exchange_read t env (setPath req b) a w c s1 s3 hd hw]

theorem setPath_eq (req : Request) (u : URL) (p : String) (hu : req.URL = some u) :
    setPath req p = { req with URL := some { u with Path := p } } := by
  simp [setPath, hu]

/-- What a request that passes validation makes of its two parts. -/
theorem RoundTrip_valid_calls (t : Transport) (env : Env σ κ ε ρ) (req : Request)
    (w : World σ κ) (u : URL) (a b : String) (hu : req.URL = some u)
    (hs : u.Scheme = Scheme) (hh : u.Host = "unix") (hp : u.Path = a ++ ":" ++ b)
    (ha : ':' ∉ a.data) (hb : ':' ∉ b.data) :
    (∀ m, (RoundTrip t env req w).err ≠ some (.New m)) ∧
    (calls (RoundTrip t env req w) w).head? = some (.dial "unix" a t.DialTimeout) ∧
    (∀ c r, Event.write c r ∈ calls (RoundTrip t env req w) w →
      r = { req with URL := some { u with Path := b } }) ∧
    (∀ c s1, env.DialTimeout "unix" a t.DialTimeout w.st = (.ok c, s1) →
      Event.write c { req with URL := some { u with Path := b } } ∈
        calls (RoundTrip t env req w) w) := by
  refine ⟨fun m => ?_, ?_⟩
  · rw [RoundTrip_valid t env req w u a b hu hs hh hp ha hb]
    exact exchange_err_ne_New t env (setPath req b) a w m
  rw [← setPath_eq req u b hu]
  rcases exchange_cases t env (setPath req b) a w with ⟨e, s1, hd⟩ | ⟨c, s1, e, s3, hd, hw⟩ |
    ⟨c, s1, s3, hd, hw⟩
  · rw [RoundTrip_dial_error t env req w u a b hu hs hh hp ha hb e s1 hd]
    simp [calls, hd]
  · rw [RoundTrip_write_error t env req w u a b hu hs hh hp ha hb c s1 e s3 hd hw]
    by_cases h : t.RequestTimeout > 0 <;> simp [calls, hd, h]
  · rw [RoundTrip_read t env req w u a b hu hs hh hp ha hb c s1 s3 hd hw]
    by_cases h : t.RequestTimeout > 0 <;> by_cases h2 : t.ResponseHeaderTimeout > 0 <;>
      simp [calls, hd, h, h2]

/-! ## The specification's properties -/

/-- C1: for every transport configuration, every request with a non-nil URL
and every behaviour of the collaborators, the URL path of the request after
`RoundTrip` returns is the URL path it had on entry (on validation failure,
dial failure, write failure, read failure and success alike). -/
theorem RoundTrip_restores_path (t : Transport) (env : Env σ κ ε ρ) (req : Request)
    (w : World σ κ) (u : URL) (hu : req.URL = some u) :
    ∃ u1, (RoundTrip t env req w).req.URL = some u1 ∧ u1.Path = u.Path := by
  rw [RoundTrip_req]
  exact ⟨u, hu, rfl⟩

/-- C2: a request with a non-nil URL whose scheme is not "http+unix" gets no
response and the error "unsupported protocol scheme: " followed by the scheme;
no collaborator is called, the world is untouched and the request is left as
it was. -/
theorem RoundTrip_unsupported_scheme (t : Transport) (env : Env σ κ ε ρ) (req : Request)
    (w : World σ κ) (u : URL) (hu : req.URL = some u) (hs : u.Scheme ≠ "http+unix") :
    (RoundTrip t env req w).resp = none ∧
    (RoundTrip t env req w).err =
      some (.New ("unsupported protocol scheme: " ++ u.Scheme)) ∧
    calls (RoundTrip t env req w) w = [] ∧
    (RoundTrip t env req w).world.st = w.st ∧
    (RoundTrip t env req w).req = req := by
  rw [RoundTrip_bad_scheme t env req w u hu hs]
  simp [calls]

/-- C3, as amended: a request with scheme "http+unix" whose URL host is not
"unix" fails with the error "http+unix: invalid Host in request URL", without
any call to a collaborator. -/
theorem RoundTrip_invalid_host (t : Transport) (env : Env σ κ ε ρ) (req : Request)
    (w : World σ κ) (u : URL) (hu : req.URL = some u) (hs : u.Scheme = "http+unix")
    (hh : u.Host ≠ "unix") :
    (RoundTrip t env req w).resp = none ∧
    (RoundTrip t env req w).err =
      some (.New "http+unix: invalid Host in request URL") ∧
    calls (RoundTrip t env req w) w = [] := by
  rw [RoundTrip_bad_host t env req w u hu hs hh]
  simp [calls]

/-- C4: for a request with scheme "http+unix" and host "unix", `RoundTrip`
fails with the error "http+unix: Invalid URL format" exactly when the URL path
does not contain exactly one colon; when it fails this way there is no
response, no collaborator is called and the world is untouched. -/
theorem RoundTrip_invalid_format_iff (t : Transport) (env : Env σ κ ε ρ) (req : Request)
    (w : World σ κ) (u : URL) (hu : req.URL = some u) (hs : u.Scheme = "http+unix")
    (hh : u.Host = "unix") :
    ((RoundTrip t env req w).err = some (.New "http+unix: Invalid URL format") ↔
      u.Path.data.count ':' ≠ 1) ∧
    ((RoundTrip t env req w).err = some (.New "http+unix: Invalid URL format") →
      (RoundTrip t env req w).resp = none ∧
      calls (RoundTrip t env req w) w = [] ∧
      (RoundTrip t env req w).world.st = w.st) := by
  by_cases hc : u.Path.data.count ':' = 1
  · obtain ⟨a, b, hp, ha, hb⟩ := (count_eq_one_iff u.Path).1 hc
    have hne : (RoundTrip t env req w).err ≠ some (.New "http+unix: Invalid URL format") := by
      rw [RoundTrip_valid t env req w u a b hu hs hh hp ha hb]
      exact exchange_err_ne_New t env (setPath req b) a w _
    exact ⟨⟨fun h => absurd h hne, fun h => absurd hc h⟩, fun h => absurd h hne⟩
  · rw [RoundTrip_bad_path t env req w u hu hs hh hc]
    simp [calls, hc]

/-- C7: validation stops at the first violation, in the order nil URL, scheme,
host, path format, and each failure is reported without any call to a
collaborator: a nil URL gives "http+unix: nil Request.URL"; otherwise a wrong
scheme gives the unsupported-scheme error whatever host and path are;
otherwise a wrong host gives the invalid-host error whatever the path is;
otherwise a path without exactly one colon gives the invalid-format error. -/
theorem RoundTrip_validation_order (t : Transport) (env : Env σ κ ε ρ) (req : Request)
    (w : World σ κ) :
    (req.URL = none →
      RoundTrip t env req w =
        ⟨none, some (.New "http+unix: nil Request.URL"), req, w⟩) ∧
    (∀ u, req.URL = some u → u.Scheme ≠ "http+unix" →
      RoundTrip t env req w =
        ⟨none, some (.New ("unsupported protocol scheme: " ++ u.Scheme)), req, w⟩) ∧
    (∀ u, req.URL = some u → u.Scheme = "http+unix" → u.Host ≠ "unix" →
      RoundTrip t env req w =
        ⟨none, some (.New "http+unix: invalid Host in request URL"), req, w⟩) ∧
    (∀ u, req.URL = some u → u.Scheme = "http+unix" → u.Host = "unix" →
      u.Path.data.count ':' ≠ 1 →
      RoundTrip t env req w =
        ⟨none, some (.New "http+unix: Invalid URL format"), req, w⟩) ∧
    (∀ m rest, violations req = m :: rest →
      RoundTrip t env req w = ⟨none, some (.New m), req, w⟩ ∧
      calls (RoundTrip t env req w) w = []) := by
  refine ⟨RoundTrip_nil t env req w,
   fun u hu hs => RoundTrip_bad_scheme t env req w u hu hs,
   fun u hu hs hh => RoundTrip_bad_host t env req w u hu hs hh,
   fun u hu hs hh hc => RoundTrip_bad_path t env req w u hu hs hh hc, ?_⟩
  intro m rest hv
  have key : RoundTrip t env req w = ⟨none, some (.New m), req, w⟩ := by
    unfold violations at hv
    cases hu : req.URL with
    | none =>
      rw [hu] at hv
      simp only [List.cons.injEq] at hv
      rw [RoundTrip_nil t env req w hu, hv.1]
    | some u =>
      rw [hu] at hv
      simp only at hv
      by_cases hs : u.Scheme = "http+unix"
      · by_cases hh : u.Host = "unix"
        · by_cases hc : u.Path.data.count ':' = 1
          · simp [hs, hh, hc] at hv
          · simp [hs, hh, hc] at hv
            rw [RoundTrip_bad_path t env req w u hu hs hh hc, hv.1]
        · simp [hs, hh] at hv
          rw [RoundTrip_bad_host t env req w u hu hs hh, hv.1]
      · simp [hs] at hv
        rw [RoundTrip_bad_scheme t env req w u hu hs, hv.1]
  rw [key]
  simp [calls]

/-- C5: for a request with scheme "http+unix", host "unix" and URL path
`a ++ ":" ++ b` with `a` and `b` free of colons, the first call `RoundTrip`
makes is the dial of network "unix" at address exactly `a` with the configured
dial timeout; the request handed to the serialization is the given request
with URL path exactly `b` and every other field as given, and it is handed
over whenever the dial succeeds. -/
theorem RoundTrip_dials_socket (t : Transport) (env : Env σ κ ε ρ) (req : Request)
    (w : World σ κ) (u : URL) (a b : String) (hu : req.URL = some u)
    (hs : u.Scheme = "http+unix") (hh : u.Host = "unix") (hp : u.Path = a ++ ":" ++ b)
    (ha : ':' ∉ a.data) (hb : ':' ∉ b.data) :
    (calls (RoundTrip t env req w) w).head? = some (.dial "unix" a t.DialTimeout) ∧
    (∀ c r, Event.write c r ∈ calls (RoundTrip t env req w) w →
      r = { req with URL := some { u with Path := b } }) ∧
    (∀ c s1, env.DialTimeout "unix" a t.DialTimeout w.st = (.ok c, s1) →
      Event.write c { req with URL := some { u with Path := b } } ∈
        calls (RoundTrip t env req w) w) :=
  (RoundTrip_valid_calls t env req w u a b hu hs hh hp ha hb).2

/-- C6: for a request that passes validation the outcome is decided by the
first failing step among dial, write, read.  A dial failure `e` gives no
response and `e`, and the dial is the only call made.  A write failure `e`
after a successful dial gives no response and `e`, after one dial and one
write and no read.  Otherwise the two return values are the pair the
response reader returned, after one dial, one write and one read; so a parsed
response with a nil error is returned as such. -/
theorem RoundTrip_first_failure (t : Transport) (env : Env σ κ ε ρ) (req : Request)
    (w : World σ κ) (u : URL) (a b : String) (hu : req.URL = some u)
    (hs : u.Scheme = "http+unix") (hh : u.Host = "unix") (hp : u.Path = a ++ ":" ++ b)
    (ha : ':' ∉ a.data) (hb : ':' ∉ b.data) :
    (∀ e s1, env.DialTimeout "unix" a t.DialTimeout w.st = (.error e, s1) →
      (RoundTrip t env req w).resp = none ∧
      (RoundTrip t env req w).err = some (.ext e) ∧
      calls (RoundTrip t env req w) w = [.dial "unix" a t.DialTimeout]) ∧
    (∀ c s1 e s3, env.DialTimeout "unix" a t.DialTimeout w.st = (.ok c, s1) →
      env.Write (setPath req b) c (stBeforeWrite t env c s1) = (some e, s3) →
      (RoundTrip t env req w).resp = none ∧
      (RoundTrip t env req w).err = some (.ext e) ∧
      (steps (RoundTrip t env req w) w).filter (fun k => k ≠ .deadline) = [.dial, .write]) ∧
    (∀ c s1 s3, env.DialTimeout "unix" a t.DialTimeout w.st = (.ok c, s1) →
      env.Write (setPath req b) c (stBeforeWrite t env c s1) = (none, s3) →
      (RoundTrip t env req w).resp =
        (env.ReadResponse c (setPath req b) (stBeforeRead t env c s3)).1.1 ∧
      (RoundTrip t env req w).err =
        (env.ReadResponse c (setPath req b) (stBeforeRead t env c s3)).1.2.map GoError.ext ∧
      (steps (RoundTrip t env req w) w).filter (fun k => k ≠ .deadline) =
        [.dial, .write, .read] ∧
      (∀ r, (env.ReadResponse c (setPath req b) (stBeforeRead t env c s3)).1 = (some r, none) →
        (RoundTrip t env req w).resp = some r ∧ (RoundTrip t env req w).err = none)) := by
  refine ⟨?_, ?_, ?_⟩
  · intro e s1 hd
    rw [RoundTrip_dial_error t env req w u a b hu hs hh hp ha hb e s1 hd]
    simp [calls]
  · intro c s1 e s3 hd hw
    rw [RoundTrip_write_error t env req w u a b hu hs hh hp ha hb c s1 e s3 hd hw]
    by_cases h : t.RequestTimeout > 0 <;> simp [steps, calls, h, Event.step]
  · intro c s1 s3 hd hw
    rw [RoundTrip_read t env req w u a b hu hs hh hp ha hb c s1 s3 hd hw]
    refine ⟨rfl, rfl, ?_, ?_⟩
    · by_cases h : t.RequestTimeout > 0 <;> by_cases h2 : t.ResponseHeaderTimeout > 0 <;>
        simp [steps, calls, h, h2, Event.step]
    · intro r hr
      simp [hr]

/-- C8: for a call that reaches a successful dial, the calls made are: the
dial; a write deadline of now + RequestTimeout, present exactly when
RequestTimeout > 0; the write; and, when the write succeeded, a read deadline
of now + ResponseHeaderTimeout, present exactly when ResponseHeaderTimeout > 0,
followed by the read.  A zero or negative timeout sets no deadline. -/
theorem RoundTrip_deadlines (t : Transport) (env : Env σ κ ε ρ) (req : Request)
    (w : World σ κ) (u : URL) (a b : String) (hu : req.URL = some u)
    (hs : u.Scheme = "http+unix") (hh : u.Host = "unix") (hp : u.Path = a ++ ":" ++ b)
    (ha : ':' ∉ a.data) (hb : ':' ∉ b.data) (c : κ) (s1 : σ)
    (hd : env.DialTimeout "unix" a t.DialTimeout w.st = (.ok c, s1)) :
    calls (RoundTrip t env req w) w =
      [.dial "unix" a t.DialTimeout] ++
      (if t.RequestTimeout > 0 then
        [.setWriteDeadline c (env.Now s1 + t.RequestTimeout)] else []) ++
      [.write c (setPath req b)] ++
      (if (env.Write (setPath req b) c (stBeforeWrite t env c s1)).1.isNone then
        (if t.ResponseHeaderTimeout > 0 then
          [.setReadDeadline c
            (env.Now (env.Write (setPath req b) c (stBeforeWrite t env c s1)).2 +
              t.ResponseHeaderTimeout)] else []) ++
        [.read c (setPath req b)]
       else []) ∧
    ((∃ c1 tm, Event.setWriteDeadline c1 tm ∈ calls (RoundTrip t env req w) w) ↔
      t.RequestTimeout > 0) ∧
    ((∃ c1 tm, Event.setReadDeadline c1 tm ∈ calls (RoundTrip t env req w) w) ↔
      ((env.Write (setPath req b) c (stBeforeWrite t env c s1)).1 = none ∧
        t.ResponseHeaderTimeout > 0)) := by
  rcases hw : env.Write (setPath req b) c (stBeforeWrite t env c s1) with ⟨(_ | e), s3⟩
  · rw [RoundTrip_read t env req w u a b hu hs hh hp ha hb c s1 s3 hd hw]
    by_cases h : t.RequestTimeout > 0 <;> by_cases h2 : t.ResponseHeaderTimeout > 0 <;>
      simp [calls, h, h2]
  · rw [RoundTrip_write_error t env req w u a b hu hs hh hp ha hb c s1 e s3 hd hw]
    by_cases h : t.RequestTimeout > 0 <;> simp [calls, h]

/-- C9: for a call that passes validation, the dial is called exactly once,
the write and the read at most once each, in the order dial, write, read; the
write is attempted only after a successful dial and the read only after a
successful write; the connection is never closed, whatever step fails. -/
theorem RoundTrip_step_order (t : Transport) (env : Env σ κ ε ρ) (req : Request)
    (w : World σ κ) (u : URL) (a b : String) (hu : req.URL = some u)
    (hs : u.Scheme = "http+unix") (hh : u.Host = "unix") (hp : u.Path = a ++ ":" ++ b)
    (ha : ':' ∉ a.data) (hb : ':' ∉ b.data) :
    (steps (RoundTrip t env req w) w).count .dial = 1 ∧
    (steps (RoundTrip t env req w) w).count .write ≤ 1 ∧
    (steps (RoundTrip t env req w) w).count .read ≤ 1 ∧
    (steps (RoundTrip t env req w) w).count .close = 0 ∧
    (∃ rest, (steps (RoundTrip t env req w) w).filter (fun k => k ≠ .deadline) ++ rest =
      [.dial, .write, .read]) ∧
    (Step.write ∈ steps (RoundTrip t env req w) w →
      ∃ c s1, env.DialTimeout "unix" a t.DialTimeout w.st = (.ok c, s1)) ∧
    (Step.read ∈ steps (RoundTrip t env req w) w →
      ∃ c s1 s3, env.DialTimeout "unix" a t.DialTimeout w.st = (.ok c, s1) ∧
        env.Write (setPath req b) c (stBeforeWrite t env c s1) = (none, s3)) := by
  rcases exchange_cases t env (setPath req b) a w with ⟨e, s1, hd⟩ | ⟨c, s1, e, s3, hd, hw⟩ |
    ⟨c, s1, s3, hd, hw⟩
  · rw [RoundTrip_dial_error t env req w u a b hu hs hh hp ha hb e s1 hd]
    simp [steps, calls, Event.step]
  · rw [RoundTrip_write_error t env req w u a b hu hs hh hp ha hb c s1 e s3 hd hw]
    refine ⟨?_, ?_, ?_, ?_, ?_, fun _ => ⟨c, s1, hd⟩, ?_⟩ <;>
      by_cases h : t.RequestTimeout > 0 <;> simp [steps, calls, h, Event.step]
  · rw [RoundTrip_read t env req w u a b hu hs hh hp ha hb c s1 s3 hd hw]
    refine ⟨?_, ?_, ?_, ?_, ?_, fun _ => ⟨c, s1, hd⟩, fun _ => ⟨c, s1, s3, hd, hw⟩⟩ <;>
      by_cases h : t.RequestTimeout > 0 <;> by_cases h2 : t.ResponseHeaderTimeout > 0 <;>
      simp [steps, calls, h, h2, Event.step]

/-- C10: validation does not ask either part of the split to be non-empty.
For a request with scheme "http+unix" and host "unix" whose URL path is
`":" ++ x`, `x ++ ":"` (`x` free of colons) or `":"`, `RoundTrip` returns no
validation error and goes on to dial: an empty socket part is the dialed
address, and an empty in-socket part is the URL path of the request that is
serialized once the dial succeeds. -/
theorem RoundTrip_empty_parts (t : Transport) (env : Env σ κ ε ρ) (req : Request)
    (w : World σ κ) (u : URL) (x : String) (hu : req.URL = some u)
    (hs : u.Scheme = "http+unix") (hh : u.Host = "unix") (hx : ':' ∉ x.data) :
    (u.Path = ":" ++ x →
      (∀ m, (RoundTrip t env req w).err ≠ some (.New m)) ∧
      (calls (RoundTrip t env req w) w).head? = some (.dial "unix" "" t.DialTimeout) ∧
      (∀ c s1, env.DialTimeout "unix" "" t.DialTimeout w.st = (.ok c, s1) →
        Event.write c { req with URL := some { u with Path := x } } ∈
          calls (RoundTrip t env req w) w)) ∧
    (u.Path = x ++ ":" →
      (∀ m, (RoundTrip t env req w).err ≠ some (.New m)) ∧
      (calls (RoundTrip t env req w) w).head? = some (.dial "unix" x t.DialTimeout) ∧
      (∀ c s1, env.DialTimeout "unix" x t.DialTimeout w.st = (.ok c, s1) →
        Event.write c { req with URL := some { u with Path := "" } } ∈
          calls (RoundTrip t env req w) w)) ∧
    (u.Path = ":" →
      (∀ m, (RoundTrip t env req w).err ≠ some (.New m)) ∧
      (calls (RoundTrip t env req w) w).head? = some (.dial "unix" "" t.DialTimeout) ∧
      (∀ c s1, env.DialTimeout "unix" "" t.DialTimeout w.st = (.ok c, s1) →
        Event.write c { req with URL := some { u with Path := "" } } ∈
          calls (RoundTrip t env req w) w)) := by
  have hnil : ':' ∉ ("" : String).data := by simp
  refine ⟨fun hp => ?_, fun hp => ?_, fun hp => ?_⟩
  · have hp2 : u.Path = "" ++ ":" ++ x := by rw [hp]; simp
    have h := RoundTrip_valid_calls t env req w u "" x hu hs hh hp2 hnil hx
    exact ⟨h.1, h.2.1, h.2.2.2⟩
  · have hp2 : u.Path = x ++ ":" ++ "" := by rw [hp]; simp
    have h := RoundTrip_valid_calls t env req w u x "" hu hs hh hp2 hx hnil
    exact ⟨h.1, h.2.1, h.2.2.2⟩
  · have hp2 : u.Path = "" ++ ":" ++ "" := by rw [hp]; rfl
    have h := RoundTrip_valid_calls t env req w u "" "" hu hs hh hp2 hnil hnil
    exact ⟨h.1, h.2.1, h.2.2.2⟩

end facts

/-! ## Worked instances -/

theorem RoundTrip_restores_path_witness :
    ∃ u1, (RoundTrip demoTransport (demoEnv true false true) pingReq demoWorld).req.URL
        = some u1 ∧ u1.Path = "/tmp/test.sock:/ping" :=
  RoundTrip_restores_path demoTransport (demoEnv true false true) pingReq demoWorld
    pingURL rfl

theorem RoundTrip_unsupported_scheme_witness :
    (RoundTrip demoTransport (demoEnv true true true)
      (demoReq "https" "unix" "/tmp/test.sock:/ping") demoWorld).resp = none ∧
    (RoundTrip demoTransport (demoEnv true true true)
      (demoReq "https" "unix" "/tmp/test.sock:/ping") demoWorld).err =
      some (.New "unsupported protocol scheme: https") ∧
    calls (RoundTrip demoTransport (demoEnv true true true)
      (demoReq "https" "unix" "/tmp/test.sock:/ping") demoWorld) demoWorld = [] ∧
    (RoundTrip demoTransport (demoEnv true true true)
      (demoReq "https" "unix" "/tmp/test.sock:/ping") demoWorld).world.st = 0 ∧
    (RoundTrip demoTransport (demoEnv true true true)
      (demoReq "https" "unix" "/tmp/test.sock:/ping") demoWorld).req =
      demoReq "https" "unix" "/tmp/test.sock:/ping" :=
  RoundTrip_unsupported_scheme demoTransport (demoEnv true true true)
    (demoReq "https" "unix" "/tmp/test.sock:/ping") demoWorld
    (demoURL "https" "unix" "/tmp/test.sock:/ping") rfl (by decide)

/-- A request with host "example.com" and scheme "http" does not fail with the
invalid-host error: the scheme is checked first. -/
theorem invalid_host_counterexample :
    (demoURL "http" "example.com" "/tmp/test.sock:/ping").Host ≠ "unix" ∧
    (RoundTrip demoTransport (demoEnv true true true)
      (demoReq "http" "example.com" "/tmp/test.sock:/ping") demoWorld).err =
      some (.New "unsupported protocol scheme: http") ∧
    (RoundTrip demoTransport (demoEnv true true true)
      (demoReq "http" "example.com" "/tmp/test.sock:/ping") demoWorld).err ≠
      some (.New "http+unix: invalid Host in request URL") := by
  decide

theorem RoundTrip_invalid_host_witness :
    (RoundTrip demoTransport (demoEnv true true true)
      (demoReq "http+unix" "example.com" "/tmp/test.sock:/ping") demoWorld).resp = none ∧
    (RoundTrip demoTransport (demoEnv true true true)
      (demoReq "http+unix" "example.com" "/tmp/test.sock:/ping") demoWorld).err =
      some (.New "http+unix: invalid Host in request URL") ∧
    calls (RoundTrip demoTransport (demoEnv true true true)
      (demoReq "http+unix" "example.com" "/tmp/test.sock:/ping") demoWorld) demoWorld = [] :=
  RoundTrip_invalid_host demoTransport (demoEnv true true true)
    (demoReq "http+unix" "example.com" "/tmp/test.sock:/ping") demoWorld
    (demoURL "http+unix" "example.com" "/tmp/test.sock:/ping") rfl rfl (by decide)

theorem RoundTrip_invalid_format_iff_witness :
    ((RoundTrip demoTransport (demoEnv true true true)
        (demoReq "http+unix" "unix" "/tmp/a:b.sock:/ping") demoWorld).err =
        some (.New "http+unix: Invalid URL format") ↔
      "/tmp/a:b.sock:/ping".data.count ':' ≠ 1) ∧
    ((RoundTrip demoTransport (demoEnv true true true)
        (demoReq "http+unix" "unix" "/tmp/a:b.sock:/ping") demoWorld).err =
        some (.New "http+unix: Invalid URL format") →
      (RoundTrip demoTransport (demoEnv true true true)
        (demoReq "http+unix" "unix" "/tmp/a:b.sock:/ping") demoWorld).resp = none ∧
      calls (RoundTrip demoTransport (demoEnv true true true)
        (demoReq "http+unix" "unix" "/tmp/a:b.sock:/ping") demoWorld) demoWorld = [] ∧
      (RoundTrip demoTransport (demoEnv true true true)
        (demoReq "http+unix" "unix" "/tmp/a:b.sock:/ping") demoWorld).world.st = 0) :=
  RoundTrip_invalid_format_iff demoTransport (demoEnv true true true)
    (demoReq "http+unix" "unix" "/tmp/a:b.sock:/ping") demoWorld
    (demoURL "http+unix" "unix" "/tmp/a:b.sock:/ping") rfl rfl rfl

theorem RoundTrip_dials_socket_witness :
    (calls (RoundTrip demoTransport (demoEnv true true true) pingReq demoWorld)
      demoWorld).head? = some (.dial "unix" "/tmp/test.sock" 5) ∧
    Event.write 7 (demoReq "http+unix" "unix" "/ping") ∈
      calls (RoundTrip demoTransport (demoEnv true true true) pingReq demoWorld) demoWorld :=
  have h := RoundTrip_dials_socket demoTransport (demoEnv true true true) pingReq demoWorld
    pingURL "/tmp/test.sock" "/ping" rfl rfl rfl (by decide) (by decide) (by decide)
  ⟨h.1, h.2.2 7 1 rfl⟩

theorem RoundTrip_first_failure_witness :
    ((RoundTrip demoTransport (demoEnv false true true) pingReq demoWorld).resp = none ∧
      (RoundTrip demoTransport (demoEnv false true true) pingReq demoWorld).err =
        some (.ext "connection refused") ∧
      calls (RoundTrip demoTransport (demoEnv false true true) pingReq demoWorld) demoWorld =
        [.dial "unix" "/tmp/test.sock" 5]) ∧
    ((RoundTrip demoTransport (demoEnv true false true) pingReq demoWorld).resp = none ∧
      (RoundTrip demoTransport (demoEnv true false true) pingReq demoWorld).err =
        some (.ext "broken pipe") ∧
      (steps (RoundTrip demoTransport (demoEnv true false true) pingReq demoWorld)
        demoWorld).filter (fun k => k ≠ .deadline) = [.dial, .write]) ∧
    ((RoundTrip demoTransport (demoEnv true true true) pingReq demoWorld).resp =
        some "200 OK" ∧
      (RoundTrip demoTransport (demoEnv true true true) pingReq demoWorld).err = none) :=
  ⟨(RoundTrip_first_failure demoTransport (demoEnv false true true) pingReq demoWorld
      pingURL "/tmp/test.sock" "/ping" rfl rfl rfl (by decide) (by decide) (by decide)).1
      "connection refused" 1 rfl,
   (RoundTrip_first_failure demoTransport (demoEnv true false true) pingReq demoWorld
      pingURL "/tmp/test.sock" "/ping" rfl rfl rfl (by decide) (by decide) (by decide)).2.1
      7 1 "broken pipe" 3 rfl rfl,
   ((RoundTrip_first_failure demoTransport (demoEnv true true true) pingReq demoWorld
      pingURL "/tmp/test.sock" "/ping" rfl rfl rfl (by decide) (by decide) (by decide)).2.2
      7 1 3 rfl rfl).2.2.2 "200 OK" rfl⟩

theorem RoundTrip_validation_order_witness :
    RoundTrip demoTransport (demoEnv true true true) ⟨"GET", none, [], ""⟩ demoWorld =
      ⟨none, some (.New "http+unix: nil Request.URL"), ⟨"GET", none, [], ""⟩, demoWorld⟩ ∧
    RoundTrip demoTransport (demoEnv true true true) (demoReq "http" "example.com" "/x")
        demoWorld =
      ⟨none, some (.New "unsupported protocol scheme: http"),
        demoReq "http" "example.com" "/x", demoWorld⟩ ∧
    RoundTrip demoTransport (demoEnv true true true) (demoReq "http+unix" "example.com" "/x")
        demoWorld =
      ⟨none, some (.New "http+unix: invalid Host in request URL"),
        demoReq "http+unix" "example.com" "/x", demoWorld⟩ ∧
    RoundTrip demoTransport (demoEnv true true true) (demoReq "http+unix" "unix" "/x")
        demoWorld =
      ⟨none, some (.New "http+unix: Invalid URL format"),
        demoReq "http+unix" "unix" "/x", demoWorld⟩ ∧
    (RoundTrip demoTransport (demoEnv true true true) (demoReq "http" "example.com" "/x")
        demoWorld =
      ⟨none, some (.New "unsupported protocol scheme: http"),
        demoReq "http" "example.com" "/x", demoWorld⟩ ∧
     calls (RoundTrip demoTransport (demoEnv true true true)
       (demoReq "http" "example.com" "/x") demoWorld) demoWorld = []) :=
  ⟨(RoundTrip_validation_order demoTransport (demoEnv true true true)
      ⟨"GET", none, [], ""⟩ demoWorld).1 rfl,
   (RoundTrip_validation_order demoTransport (demoEnv true true true)
      (demoReq "http" "example.com" "/x") demoWorld).2.1
      (demoURL "http" "example.com" "/x") rfl (by decide),
   (RoundTrip_validation_order demoTransport (demoEnv true true true)
      (demoReq "http+unix" "example.com" "/x") demoWorld).2.2.1
      (demoURL "http+unix" "example.com" "/x") rfl rfl (by decide),
   (RoundTrip_validation_order demoTransport (demoEnv true true true)
      (demoReq "http+unix" "unix" "/x") demoWorld).2.2.2.1
      (demoURL "http+unix" "unix" "/x") rfl rfl rfl (by decide),
   (RoundTrip_validation_order demoTransport (demoEnv true true true)
      (demoReq "http" "example.com" "/x") demoWorld).2.2.2.2
      "unsupported protocol scheme: http"
      ["http+unix: invalid Host in request URL", "http+unix: Invalid URL format"]
      (by decide)⟩

theorem RoundTrip_deadlines_witness :
    calls (RoundTrip demoTransport (demoEnv true true true) pingReq demoWorld) demoWorld =
      [.dial "unix" "/tmp/test.sock" 5, .setWriteDeadline 7 1021,
       .write 7 (demoReq "http+unix" "unix" "/ping"), .setReadDeadline 7 1033,
       .read 7 (demoReq "http+unix" "unix" "/ping")] ∧
    ((∃ c1 tm, Event.setWriteDeadline c1 tm ∈
        calls (RoundTrip ⟨5, 0, -1⟩ (demoEnv true true true) pingReq demoWorld) demoWorld) ↔
      (0 : Int) > 0) ∧
    ((∃ c1 tm, Event.setReadDeadline c1 tm ∈
        calls (RoundTrip ⟨5, 0, -1⟩ (demoEnv true true true) pingReq demoWorld) demoWorld) ↔
      ((none : Option String) = none ∧ (-1 : Int) > 0)) :=
  ⟨(RoundTrip_deadlines demoTransport (demoEnv true true true) pingReq demoWorld
      pingURL "/tmp/test.sock" "/ping" rfl rfl rfl (by decide) (by decide) (by decide)
      7 1 rfl).1,
   (RoundTrip_deadlines ⟨5, 0, -1⟩ (demoEnv true true true) pingReq demoWorld
      pingURL "/tmp/test.sock" "/ping" rfl rfl rfl (by decide) (by decide) (by decide)
      7 1 rfl).2⟩

theorem RoundTrip_step_order_witness :
    (steps (RoundTrip demoTransport (demoEnv true true false) pingReq demoWorld)
      demoWorld).count .dial = 1 ∧
    (steps (RoundTrip demoTransport (demoEnv true true false) pingReq demoWorld)
      demoWorld).count .close = 0 :=
  have h := RoundTrip_step_order demoTransport (demoEnv true true false) pingReq demoWorld
    pingURL "/tmp/test.sock" "/ping" rfl rfl rfl (by decide) (by decide) (by decide)
  ⟨h.1, h.2.2.2.1⟩

theorem RoundTrip_empty_parts_witness :
    ((∀ m, (RoundTrip demoTransport (demoEnv true true true)
        (demoReq "http+unix" "unix" ":/ping") demoWorld).err ≠ some (.New m)) ∧
      (calls (RoundTrip demoTransport (demoEnv true true true)
        (demoReq "http+unix" "unix" ":/ping") demoWorld) demoWorld).head? =
        some (.dial "unix" "" 5) ∧
      Event.write 7 (demoReq "http+unix" "unix" "/ping") ∈
        calls (RoundTrip demoTransport (demoEnv true true true)
          (demoReq "http+unix" "unix" ":/ping") demoWorld) demoWorld) ∧
    ((∀ m, (RoundTrip demoTransport (demoEnv true true true)
        (demoReq "http+unix" "unix" "/tmp/test.sock:") demoWorld).err ≠ some (.New m)) ∧
      (calls (RoundTrip demoTransport (demoEnv true true true)
        (demoReq "http+unix" "unix" "/tmp/test.sock:") demoWorld) demoWorld).head? =
        some (.dial "unix" "/tmp/test.sock" 5) ∧
      Event.write 7 (demoReq "http+unix" "unix" "") ∈
        calls (RoundTrip demoTransport (demoEnv true true true)
          (demoReq "http+unix" "unix" "/tmp/test.sock:") demoWorld) demoWorld) ∧
    ((∀ m, (RoundTrip demoTransport (demoEnv true true true)
        (demoReq "http+unix" "unix" ":") demoWorld).err ≠ some (.New m)) ∧
      (calls (RoundTrip demoTransport (demoEnv true true true)
        (demoReq "http+unix" "unix" ":") demoWorld) demoWorld).head? =
        some (.dial "unix" "" 5) ∧
      Event.write 7 (demoReq "http+unix" "unix" "") ∈
        calls (RoundTrip demoTransport (demoEnv true true true)
          (demoReq "http+unix" "unix" ":") demoWorld) demoWorld) :=
  have h1 := (RoundTrip_empty_parts demoTransport (demoEnv true true true)
    (demoReq "http+unix" "unix" ":/ping") demoWorld (demoURL "http+unix" "unix" ":/ping")
    "/ping" rfl rfl rfl (by decide)).1 rfl
  have h2 := (RoundTrip_empty_parts demoTransport (demoEnv true true true)
    (demoReq "http+unix" "unix" "/tmp/test.sock:") demoWorld
    (demoURL "http+unix" "unix" "/tmp/test.sock:")
    "/tmp/test.sock" rfl rfl rfl (by decide)).2.1 rfl
  have h3 := (RoundTrip_empty_parts demoTransport (demoEnv true true true)
    (demoReq "http+unix" "unix" ":") demoWorld (demoURL "http+unix" "unix" ":")
    "" rfl rfl rfl (by decide)).2.2 rfl
  ⟨⟨h1.1, h1.2.1, h1.2.2 7 1 rfl⟩, ⟨h2.1, h2.2.1, h2.2.2 7 1 rfl⟩,
   ⟨h3.1, h3.2.1, h3.2.2 7 1 rfl⟩⟩

end Httpunix
